import Mathlib

/-!
Verification of the capture-cycle scheduler and artifact pipeline of
`auto-daily-report` (src/src-tauri/src/lib.rs), as a shallow embedding.

Filesystem paths are modelled as lists of components; filesystem existence
and canonicalization, the credential store, the HTTP transport, JSON
parsing/serialization and the ambient-context collector are external
collaborators, supplied as explicit parameters (records of functions).
All error values are the exact strings the Rust code produces with
`format!`/`Err`.
-/

namespace AutoDailyReport

/-- A filesystem path, as its list of components from the root
(`PathBuf` in the source). `starts_with` on `PathBuf` is component-wise
prefix, i.e. `List.isPrefixOf`. -/
abbrev FsPath := List String

/-- The filesystem as seen by the code: which paths exist
(`Path::exists`, line 118 / line 171) and canonicalization
(`Path::canonicalize`, line 123), which can fail (broken symlink, I/O). -/
structure FS where
  pathExists : FsPath → Bool
  canonicalize : FsPath → Except String FsPath

/-- Embedding of `validate_pictures_path` (lib.rs lines 114-141): check the
path exists, canonicalize it, compute the app directory
`<picturesDir>/auto-daily-report` canonicalized with `unwrap_or` fallback,
and require the canonical path to start with it. `picturesDir` is
`dirs::picture_dir()` (line 129), an external lookup that can be absent. -/
def validate_pictures_path (fs : FS) (picturesDir : Option FsPath)
    (image_path : FsPath) : Except String FsPath :=
  if ¬ fs.pathExists image_path then
    .error "画像ファイルが存在しません"
  else
    match fs.canonicalize image_path with
    | .error e => .error ("パスの正規化に失敗: " ++ e)
    | .ok canonical =>
      match picturesDir with
      | none => .error "Picturesフォルダが見つかりません"
      | some pd =>
        let app_dir := pd ++ ["auto-daily-report"]
        let canonical_app_dir :=
          match fs.canonicalize app_dir with
          | .ok c => c
          | .error _ => app_dir
        if ¬ (canonical_app_dir.isPrefixOf canonical) then
          .error "許可されていない画像パスです"
        else
          .ok canonical

/-- The canonical app output directory used by `validate_pictures_path`
(lines 130-133): `<picturesDir>/auto-daily-report`, canonicalized when
possible, the uncanonicalized join otherwise. -/
def canonicalAppDir (fs : FS) (pd : FsPath) : FsPath :=
  let app_dir := pd ++ ["auto-daily-report"]
  match fs.canonicalize app_dir with
  | .ok c => c
  | .error _ => app_dir

/-- Zero-padding of the sequence number to three digits
(`format!("{:03}", counter)`, line 169). -/
def pad3 (n : Nat) : String :=
  let s := toString n
  if s.length < 3 then String.mk (List.replicate (3 - s.length) '0') ++ s
  else s

/-- The candidate artifact path `<dateDir>/<stem>_<NNN>.jpg` for sequence
number `n` (lines 169-170). -/
def candidatePath (dateDir : FsPath) (stem : String) (n : Nat) : FsPath :=
  dateDir ++ [stem ++ "_" ++ pad3 n ++ ".jpg"]

/-- The sequence-number scan loop of `process_screenshot_blocking`
(lines 166-179), with an explicit recursion bound so the definition is
structural (and hence kernel-evaluable): starting at `counter`, return the
first `n` whose candidate is not occupied; after incrementing past 999,
fail. `occupied n` is `candidate.exists()` for slot `n`. The entry point
passes `fuel = 999 - counter`, so the zero-fuel case is reached only with
`counter = 999`, where the source's `counter + 1 > 999` test fires; the
zero-fuel branch returns that same error. -/
def findSeqGo (occupied : Nat → Bool) : Nat → Nat → Except String Nat
  | counter, 0 =>
    if ¬ occupied counter then .ok counter
    else .error "連番の上限に達しました"
  | counter, f + 1 =>
    if ¬ occupied counter then .ok counter
    else if counter + 1 > 999 then .error "連番の上限に達しました"
    else findSeqGo occupied (counter + 1) f

/-- Embedding of the scan loop of `process_screenshot_blocking`
(lines 166-179) from loop entry at `counter`. -/
def findSeqFrom (occupied : Nat → Bool) (counter : Nat) : Except String Nat :=
  findSeqGo occupied counter (999 - counter)

/-- The artifact-name disambiguation of `process_screenshot_blocking`
(lines 165-179): scan `<stem>_<NNN>.jpg` for `NNN` from 1 upward against
the filesystem, returning the first free path or the sequence-exhausted
error. -/
def nextArtifactPath (fs : FS) (dateDir : FsPath) (stem : String) :
    Except String FsPath :=
  match findSeqFrom (fun n => fs.pathExists (candidatePath dateDir stem n)) 1 with
  | .ok n => .ok (candidatePath dateDir stem n)
  | .error e => .error e

/-- Embedding of `CountdownState` (lib.rs lines 31-40). All four fields are
atomics in the source; operations are modelled as whole-state transitions
(each source operation is a short sequence of SeqCst loads/stores). -/
structure CountdownState where
  running : Bool
  interval_seconds : Nat
  remaining_seconds : Nat
  is_capturing : Bool
deriving DecidableEq, Repr

/-- A scheduler world: the countdown state together with the tray
indicator title (`TrayState`; `none` means the title is cleared). -/
structure SchedWorld where
  cs : CountdownState
  tray : Option String
deriving DecidableEq, Repr

/-- The state installed by `.manage(CountdownState { .. })` at startup
(lines 709-714), with the tray title initially absent. -/
def initWorld : SchedWorld :=
  { cs := { running := false, interval_seconds := 60,
            remaining_seconds := 0, is_capturing := false },
    tray := none }

/-- Embedding of `start_countdown_timer` (lines 299-313 and 364): if
already running, return Ok without touching the state and without spawning
the tick task; otherwise set running, store the interval into both
`interval_seconds` and `remaining_seconds`, clear `is_capturing`, and
spawn the tick task. Returns (command result, new world, whether a tick
task was spawned). -/
def start_countdown_timer (interval_seconds : Nat) (w : SchedWorld) :
    Except String Unit × SchedWorld × Bool :=
  if w.cs.running then (.ok (), w, false)
  else
    (.ok (),
     { w with cs := { running := true, interval_seconds := interval_seconds,
                      remaining_seconds := interval_seconds,
                      is_capturing := false } },
     true)

/-- Result of one iteration of the tick loop body after the sleep:
the world after the iteration, the title pushed to the tray during it
(if any), and whether the loop exited. -/
structure TickResult where
  world : SchedWorld
  pushed : Option String
  exited : Bool
deriving DecidableEq, Repr

/-- Embedding of the post-sleep part of one tick-loop iteration
(lines 337-360): re-check the running flag and exit if cleared; otherwise
load `remaining_seconds`, compute `if remaining > 0 { remaining - 1 } else { 0 }`
and store it; if not `is_capturing`, set the tray title to
`format!("{}秒", new_remaining)`; if the new value is zero, store
`interval_seconds` back into `remaining_seconds`. -/
def tickStep (w : SchedWorld) : TickResult :=
  if ¬ w.cs.running then { world := w, pushed := none, exited := true }
  else
    let remaining := w.cs.remaining_seconds
    let new_remaining := if remaining > 0 then remaining - 1 else 0
    let cs1 := { w.cs with remaining_seconds := new_remaining }
    let tray1 := if cs1.is_capturing then w.tray
                 else some (toString new_remaining ++ "秒")
    let pushed : Option String :=
      if cs1.is_capturing then none
      else some (toString new_remaining ++ "秒")
    let cs2 := if new_remaining = 0 then
                 { cs1 with remaining_seconds := cs1.interval_seconds }
               else cs1
    { world := { cs := cs2, tray := tray1 }, pushed := pushed, exited := false }

/-- Modelled from the spec (§4.5, claim wording): one tick, assembled
clause by clause — exit when the re-checked running flag is false; the
countdown value is the old remaining decremented with a floor at zero; it
is pushed to the tray as text exactly when `is_capturing` is false; when
it reached zero the stored remaining is reset to `interval_seconds`.
To be compared with `tickStep`, which embeds the source. -/
def tickSpec (w : SchedWorld) : TickResult :=
  if w.cs.running = false then { world := w, pushed := none, exited := true }
  else
    let value := w.cs.remaining_seconds - 1
    let pushed := if w.cs.is_capturing = false then some (toString value ++ "秒")
                  else none
    let stored := if value = 0 then w.cs.interval_seconds else value
    { world :=
        { cs := { w.cs with remaining_seconds := stored },
          tray := if w.cs.is_capturing = false then some (toString value ++ "秒")
                  else w.tray },
      pushed := pushed,
      exited := false }

/-- Embedding of `stop_countdown_timer` (lines 369-385): clear the running
flag, zero `remaining_seconds`, and clear the tray title. -/
def stop_countdown_timer (w : SchedWorld) : SchedWorld :=
  { cs := { w.cs with running := false, remaining_seconds := 0 },
    tray := none }

/-- Embedding of `reset_countdown` (lines 389-393): copy
`interval_seconds` into `remaining_seconds`. -/
def reset_countdown (w : SchedWorld) : SchedWorld :=
  { w with cs := { w.cs with remaining_seconds := w.cs.interval_seconds } }

/-- Embedding of `set_capturing_flag` (lines 397-414): store the flag and,
when it is being set, display the camera icon on the tray. -/
def set_capturing_flag (b : Bool) (w : SchedWorld) : SchedWorld :=
  { cs := { w.cs with is_capturing := b },
    tray := if b then some "📷" else w.tray }

/-- Embedding of `get_remaining_seconds` (lines 418-420): a snapshot load
of `remaining_seconds`. -/
def get_remaining_seconds (w : SchedWorld) : Nat :=
  w.cs.remaining_seconds

/-- The operations that can touch `CountdownState` after initialization. -/
inductive SchedOp where
  | start (interval : Nat)
  | tick
  | reset
  | stop
  | setCapturing (b : Bool)
deriving DecidableEq, Repr

/-- Apply one operation to a world. -/
def applyOp : SchedOp → SchedWorld → SchedWorld
  | .start i, w => (start_countdown_timer i w).2.1
  | .tick, w => (tickStep w).world
  | .reset, w => reset_countdown w
  | .stop, w => stop_countdown_timer w
  | .setCapturing b, w => set_capturing_flag b w

/-- The worlds reachable from the initial state by the scheduler
operations. -/
inductive Reachable : SchedWorld → Prop where
  | init : Reachable initWorld
  | step (op : SchedOp) {w : SchedWorld} : Reachable w → Reachable (applyOp op w)

/-- The countdown invariant: the remaining count never exceeds the
configured interval. -/
def CountdownInv (w : SchedWorld) : Prop :=
  w.cs.remaining_seconds ≤ w.cs.interval_seconds

/-! ## Analysis client -/

/-- Embedding of `LocationInfo` (lines 431-435). The source stores `f64`
coordinates; their `{:.6}` rendering is modelled with `toString`. -/
structure LocationInfo where
  latitude : Float
  longitude : Float

/-- Embedding of `ContextInfo` (lines 425-429). -/
structure ContextInfo where
  wifi_ssid : Option String
  location : Option LocationInfo

/-- Embedding of `format_context_info` (lines 517-533). -/
def format_context_info (info : ContextInfo) : String :=
  let parts : List String :=
    (match info.wifi_ssid with
     | some ssid => ["接続WiFi: " ++ ssid]
     | none => []) ++
    (match info.location with
     | some loc => ["位置: 緯度" ++ toString loc.latitude ++ ", 経度" ++
                    toString loc.longitude]
     | none => [])
  if parts.isEmpty then ""
  else "\n\n【追加コンテキスト】\n" ++ String.intercalate "\n" parts

/-- Embedding of the `OpenAIMessage` response struct (lines 548-551). -/
structure OpenAIMessage where
  content : Option String

/-- Embedding of the `OpenAIChoice` response struct (lines 543-546). -/
structure OpenAIChoice where
  message : OpenAIMessage

/-- Embedding of the `OpenAIError` response struct (lines 553-556). -/
structure OpenAIError where
  message : String

/-- Embedding of the `OpenAIResponse` envelope (lines 537-541). -/
structure OpenAIResponse where
  choices : Option (List OpenAIChoice)
  error : Option OpenAIError

/-- Embedding of `AnalysisResult` (lines 438-448), the sidecar payload. -/
structure AnalysisResult where
  timestamp : String
  model : String
  context : ContextInfo
  analysis : String

/-- The request assembled by `analyze_screenshot` (lines 598-629): the
OpenAI-style body fields that vary, plus the bearer authorization header.
The endpoint URL and the fixed generation parameters (`max_tokens` 4096,
temperature 0.2) are constants in the source. -/
structure RequestBody where
  model : String
  text : String
  image_url : String
  authorization : String

/-- Outcome of one HTTP exchange as the code observes it: a transport
error from `.send()` (line 631), or a response with its status code and
the result of reading its body text (lines 633-637). -/
inductive HttpResult where
  | transportError (msg : String)
  | response (status : Nat) (body : Except String String)

/-- `reqwest::StatusCode::is_success`: status in 200..=299. -/
def statusIsSuccess (status : Nat) : Bool :=
  200 ≤ status && status ≤ 299

/-- The sanitized hint selected by status class on a non-success response
(lines 641-647). -/
def analyzeErrorHint (status : Nat) : String :=
  if status = 401 then "認証エラー。APIキーを確認してください"
  else if status = 403 then "アクセス拒否。APIキーの権限を確認してください"
  else if status = 429 then "レート制限。しばらく待ってから再試行してください"
  else if 500 ≤ status && status ≤ 599 then
    "サーバーエラー。しばらく待ってから再試行してください"
  else "APIリクエストに失敗しました"

/-- Split a character list at its last `'.'`: the characters before it and
after it, or `none` when there is no dot. -/
def splitAtLastDot : List Char → Option (List Char × List Char)
  | [] => none
  | c :: rest =>
    match splitAtLastDot rest with
    | some (b, a) => some (c :: b, a)
    | none => if c = '.' then some ([], rest) else none

/-- Replace the extension of a single file name, as `Path::with_extension`
does: drop everything from the last dot (unless the name starts with that
dot, i.e. is a dotfile with no extension) and append `"." ++ ext`. -/
def replaceExtFile (f : String) (ext : String) : String :=
  match splitAtLastDot f.toList with
  | some (stem, _) =>
    if stem.isEmpty then f ++ "." ++ ext else String.mk stem ++ "." ++ ext
  | none => f ++ "." ++ ext

/-- `PathBuf::with_extension` on the component model: replace the
extension of the last component. -/
def withExtension : FsPath → String → FsPath
  | [], _ => []
  | [f], ext => [replaceExtFile f ext]
  | a :: b :: rest, ext => a :: withExtension (b :: rest) ext

/-- The MIME sniff of `analyze_screenshot` (lines 591-595):
`image_path.to_lowercase().ends_with(".png")`, applied to the file-name
component in the path model. -/
def mimeTypeOf (image_path : FsPath) : String :=
  let name := image_path.getLastD ""
  if (name.map Char.toLower).endsWith ".png" then "image/png"
  else "image/jpeg"

/-- The external collaborators `analyze_screenshot` calls, as a record of
functions: the filesystem, `dirs::picture_dir()`, the credential store
(`get_vercel_api_key`, lines 257-260), `collect_context_info` (platform
sensors, lines 509-514), `image_to_base64` (lines 559-565) on the
validated path, the HTTP transport, `serde_json::from_str`,
`serde_json::to_string_pretty`, `fs::write`, and `Local::now().to_rfc3339()`. -/
structure AnalyzeEnv where
  fs : FS
  picturesDir : Option FsPath
  getApiKey : Except String String
  contextInfo : ContextInfo
  readImage : FsPath → Except String String
  http : RequestBody → HttpResult
  parseJson : String → Except String OpenAIResponse
  serializeResult : AnalysisResult → Except String String
  writeFile : FsPath → String → Except String Unit
  now : String

/-- The observable outcome of one `analyze_screenshot` call: the returned
`Result`, whether the HTTP request was issued (`.send()` reached), and the
sidecar file written on success (path and content). -/
structure AnalyzeOut where
  result : Except String String
  httpCalled : Bool
  sidecar : Option (FsPath × String)

/-- Embedding of `analyze_screenshot` (lines 569-680), straight-line with
early returns: validate the path under the Pictures policy, fetch the API
key, collect and format ambient context into the prompt, base64-encode the
validated image (the infallible `to_str` conversion of line 588 is
elided), build the request, issue it, sanitize non-success statuses, parse
the envelope, surface provider errors, extract the first completion text,
and persist the sidecar at the validated path with extension `json`. -/
def analyze_screenshot (env : AnalyzeEnv) (image_path : FsPath)
    (model prompt : String) : AnalyzeOut :=
  match validate_pictures_path env.fs env.picturesDir image_path with
  | .error e => { result := .error e, httpCalled := false, sidecar := none }
  | .ok validated_path =>
    match env.getApiKey with
    | .error e => { result := .error e, httpCalled := false, sidecar := none }
    | .ok api_key =>
      let context_info := env.contextInfo
      let context_text := format_context_info context_info
      let full_prompt := prompt ++ context_text
      match env.readImage validated_path with
      | .error e => { result := .error e, httpCalled := false, sidecar := none }
      | .ok image_base64 =>
        let mime_type := mimeTypeOf image_path
        let body : RequestBody :=
          { model := model, text := full_prompt,
            image_url := "data:" ++ mime_type ++ ";base64," ++ image_base64,
            authorization := "Bearer " ++ api_key }
        match env.http body with
        | .transportError e =>
          { result := .error ("API呼び出しエラー: " ++ e),
            httpCalled := true, sidecar := none }
        | .response status bodyRead =>
          match bodyRead with
          | .error e =>
            { result := .error ("レスポンス読み取りエラー: " ++ e),
              httpCalled := true, sidecar := none }
          | .ok response_text =>
            if statusIsSuccess status = false then
              { result := .error ("API エラー (" ++ toString status ++ "): " ++
                                  analyzeErrorHint status),
                httpCalled := true, sidecar := none }
            else
              match env.parseJson response_text with
              | .error e =>
                { result := .error ("JSONパースエラー: " ++ e),
                  httpCalled := true, sidecar := none }
              | .ok openai_response =>
                match openai_response.error with
                | some err =>
                  { result := .error ("API エラー: " ++ err.message),
                    httpCalled := true, sidecar := none }
                | none =>
                  match (openai_response.choices.bind List.head?).bind
                        (fun c => c.message.content) with
                  | none =>
                    { result := .error "AIからテキストが返されませんでした",
                      httpCalled := true, sidecar := none }
                  | some text =>
                    let json_path := withExtension validated_path "json"
                    let analysis_result : AnalysisResult :=
                      { timestamp := env.now, model := model,
                        context := context_info, analysis := text }
                    match env.serializeResult analysis_result with
                    | .error e =>
                      { result := .error ("JSONシリアライズエラー: " ++ e),
                        httpCalled := true, sidecar := none }
                    | .ok json_content =>
                      match env.writeFile json_path json_content with
                      | .error e =>
                        { result := .error ("JSON保存エラー: " ++ e),
                          httpCalled := true, sidecar := none }
                      | .ok _ =>
                        { result := .ok text, httpCalled := true,
                          sidecar := some (json_path, json_content) }

/-! ## Helper lemmas -/

lemma schedOp_preserves_inv (op : SchedOp) (w : SchedWorld)
    (h : CountdownInv w) : CountdownInv (applyOp op w) := by
  cases op with
  | start i =>
    simp only [applyOp, start_countdown_timer]
    split
    · exact h
    · simp [CountdownInv]
  | tick =>
    simp only [applyOp, tickStep]
    split
    · exact h
    · simp only [CountdownInv] at *
      split <;> split <;> simp_all
      omega
  | reset =>
    simp [applyOp, reset_countdown, CountdownInv]
  | stop =>
    simp [applyOp, stop_countdown_timer, CountdownInv]
  | setCapturing b =>
    simpa [applyOp, set_capturing_flag, CountdownInv] using h

/-! ## Claims -/

/-- C2: every reachable scheduler state after initialization satisfies
`remaining_seconds ≤ interval_seconds`, and each of
`start_countdown_timer`, the per-second tick step, `reset_countdown` and
`stop_countdown_timer` preserves that invariant. -/
theorem countdown_remaining_le_interval :
    (∀ w : SchedWorld, Reachable w → CountdownInv w) ∧
    (∀ (w : SchedWorld) (i : Nat),
      CountdownInv w → CountdownInv (applyOp (.start i) w)) ∧
    (∀ w : SchedWorld, CountdownInv w → CountdownInv (applyOp .tick w)) ∧
    (∀ w : SchedWorld, CountdownInv w → CountdownInv (applyOp .reset w)) ∧
    (∀ w : SchedWorld, CountdownInv w → CountdownInv (applyOp .stop w)) := by
  refine ⟨?_, fun w i => schedOp_preserves_inv (.start i) w,
    fun w => schedOp_preserves_inv .tick w,
    fun w => schedOp_preserves_inv .reset w,
    fun w => schedOp_preserves_inv .stop w⟩
  intro w h
  induction h with
  | init => simp [CountdownInv, initWorld]
  | step op h ih => exact schedOp_preserves_inv op _ ih

/-- Witness for C2 at concrete states: the invariant holds after
start(5) followed by a tick from the initial state, and each preservation
conjunct applies at a concrete state satisfying the invariant. -/
theorem countdown_remaining_le_interval_witness :
    CountdownInv (applyOp .tick (applyOp (.start 5) initWorld)) ∧
    CountdownInv (applyOp (.start 7) initWorld) ∧
    CountdownInv (applyOp .tick initWorld) ∧
    CountdownInv (applyOp .reset initWorld) ∧
    CountdownInv (applyOp .stop initWorld) := by
  have hinit : CountdownInv initWorld := by simp [CountdownInv, initWorld]
  exact ⟨countdown_remaining_le_interval.1 _
           (Reachable.step .tick (Reachable.step (.start 5) Reachable.init)),
         countdown_remaining_le_interval.2.1 initWorld 7 hinit,
         countdown_remaining_le_interval.2.2.1 initWorld hinit,
         countdown_remaining_le_interval.2.2.2.1 initWorld hinit,
         countdown_remaining_le_interval.2.2.2.2 initWorld hinit⟩

/-- C3: the post-sleep tick-loop body equals its specification: the
running flag is re-checked (exiting, with nothing pushed and the world
unchanged, when false); otherwise the countdown value is the old
remaining decremented with a floor at zero, it is pushed to the tray as
text exactly when `is_capturing` is false, and the stored remaining is
reset to `interval_seconds` exactly when the new value is zero. -/
theorem tick_follows_spec (w : SchedWorld) : tickStep w = tickSpec w := by
  obtain ⟨⟨run, itv, rem, cap⟩, tray⟩ := w
  unfold tickStep tickSpec
  cases run
  · simp
  · cases cap <;> cases rem <;> simp <;> split <;> simp_all

/-- C9: when the timer is already running, `start_countdown_timer`
returns Ok, leaves the whole world (all four `CountdownState` fields and
the tray) unchanged, and spawns no tick task. -/
theorem start_when_running_noop (i : Nat) (w : SchedWorld)
    (h : w.cs.running = true) :
    start_countdown_timer i w = (.ok (), w, false) := by
  simp [start_countdown_timer, h]

/-- Witness for C9 at a concrete running state. -/
theorem start_when_running_noop_witness :
    ({ cs := { running := true, interval_seconds := 5, remaining_seconds := 3,
               is_capturing := true }, tray := some "3秒" } : SchedWorld).cs.running
      = true ∧
    start_countdown_timer 9
      { cs := { running := true, interval_seconds := 5, remaining_seconds := 3,
                is_capturing := true }, tray := some "3秒" } =
      (.ok (), { cs := { running := true, interval_seconds := 5,
                         remaining_seconds := 3, is_capturing := true },
                 tray := some "3秒" }, false) :=
  ⟨rfl, start_when_running_noop 9
    { cs := { running := true, interval_seconds := 5, remaining_seconds := 3,
              is_capturing := true }, tray := some "3秒" } rfl⟩

/-- C10: a start from the idle state installs a fully fresh
`CountdownState`: running set, the interval stored into both
`interval_seconds` and `remaining_seconds`, and `is_capturing` cleared
(even when a stale capture flag was left set), while spawning the tick
task and returning Ok. -/
theorem start_when_idle_resets_state (i : Nat) (w : SchedWorld)
    (h : w.cs.running = false) :
    start_countdown_timer i w =
      (.ok (),
       { w with cs := { running := true, interval_seconds := i,
                        remaining_seconds := i, is_capturing := false } },
       true) := by
  simp [start_countdown_timer, h]

/-- Witness for C10 at a concrete idle state with a stale capture flag. -/
theorem start_when_idle_resets_state_witness :
    ({ cs := { running := false, interval_seconds := 60, remaining_seconds := 0,
               is_capturing := true }, tray := some "📷" } : SchedWorld).cs.running
      = false ∧
    (start_countdown_timer 30
      { cs := { running := false, interval_seconds := 60, remaining_seconds := 0,
                is_capturing := true }, tray := some "📷" }).2.1.cs.is_capturing
      = false :=
  ⟨rfl, by
    rw [start_when_idle_resets_state 30
      { cs := { running := false, interval_seconds := 60, remaining_seconds := 0,
                is_capturing := true }, tray := some "📷" } rfl]⟩

/-- Operations after a stop that do not write `remaining_seconds` from a
stopped state: further ticks (which exit on the cleared running flag),
further stops, and capture-flag updates. `start` and `reset` write
`remaining_seconds` and are excluded. -/
def postStopOk : SchedOp → Bool
  | .tick => true
  | .stop => true
  | .setCapturing _ => true
  | _ => false

/-- Apply a list of scheduler operations in order. -/
def applyOps (ops : List SchedOp) (w : SchedWorld) : SchedWorld :=
  ops.foldl (fun acc op => applyOp op acc) w

lemma postStop_preserved (op : SchedOp) (hop : postStopOk op = true)
    (w : SchedWorld) (h : w.cs.running = false ∧ w.cs.remaining_seconds = 0) :
    (applyOp op w).cs.running = false ∧
    (applyOp op w).cs.remaining_seconds = 0 := by
  cases op <;>
    simp_all [postStopOk, applyOp, tickStep, stop_countdown_timer,
      set_capturing_flag]

lemma applyOps_postStop (ops : List SchedOp) (w : SchedWorld)
    (hops : ops.all postStopOk = true)
    (h : w.cs.running = false ∧ w.cs.remaining_seconds = 0) :
    (applyOps ops w).cs.running = false ∧
    (applyOps ops w).cs.remaining_seconds = 0 := by
  induction ops generalizing w with
  | nil => exact h
  | cons op rest ih =>
    simp only [List.all_cons, Bool.and_eq_true] at hops
    exact ih (applyOp op w) hops.2 (postStop_preserved op hops.1 w h)

/-- C7: `stop_countdown_timer` clears the running flag, zeroes
`remaining_seconds`, and clears the tray title; and after any further
sequence of operations that do not write `remaining_seconds` (ticks,
stops, capture-flag updates), `get_remaining_seconds` still returns 0. -/
theorem stop_zeroes_and_clears (w : SchedWorld) (ops : List SchedOp)
    (hops : ops.all postStopOk = true) :
    (stop_countdown_timer w).cs.running = false ∧
    (stop_countdown_timer w).cs.remaining_seconds = 0 ∧
    (stop_countdown_timer w).tray = none ∧
    get_remaining_seconds (applyOps ops (stop_countdown_timer w)) = 0 := by
  have h0 : (stop_countdown_timer w).cs.running = false ∧
      (stop_countdown_timer w).cs.remaining_seconds = 0 := by
    simp [stop_countdown_timer]
  exact ⟨h0.1, h0.2, rfl, (applyOps_postStop ops _ hops h0).2⟩

/-- Witness for C7: a concrete stop followed by tick, capture-flag and
stop operations keeps the snapshot read at 0. -/
theorem stop_zeroes_and_clears_witness :
    ([SchedOp.tick, .setCapturing true, .stop, .tick].all postStopOk = true) ∧
    get_remaining_seconds
      (applyOps [SchedOp.tick, .setCapturing true, .stop, .tick]
        (stop_countdown_timer
          { cs := { running := true, interval_seconds := 5,
                    remaining_seconds := 4, is_capturing := false },
            tray := some "4秒" })) = 0 :=
  ⟨by decide,
   (stop_zeroes_and_clears
     { cs := { running := true, interval_seconds := 5,
               remaining_seconds := 4, is_capturing := false },
       tray := some "4秒" }
     [SchedOp.tick, .setCapturing true, .stop, .tick] (by decide)).2.2.2⟩

lemma findSeqGo_ok (occ : Nat → Bool) (fuel : Nat) :
    ∀ counter n, 999 ≤ counter + fuel →
      findSeqGo occ counter fuel = .ok n →
      counter ≤ n ∧ (counter ≤ 999 → n ≤ 999) ∧ occ n = false ∧
      ∀ m, counter ≤ m → m < n → occ m = true := by
  induction fuel with
  | zero =>
    intro counter n hinv h
    simp only [findSeqGo] at h
    by_cases hc : occ counter
    · simp [hc] at h
    · simp only [hc, not_false_eq_true, if_true, Bool.false_eq_true,
        not_false_iff, ite_true, Except.ok.injEq] at h
      subst h
      exact ⟨le_refl _, fun h9 => h9, by simpa using hc,
        fun m hm hm' => absurd (lt_of_le_of_lt hm hm') (lt_irrefl _)⟩
  | succ f ih =>
    intro counter n hinv h
    simp only [findSeqGo] at h
    by_cases hc : occ counter
    · simp only [hc, not_true_eq_false, if_false, reduceIte] at h
      split at h
      · exact absurd h (by simp)
      · rename_i hle
        have hrec := ih (counter + 1) n (by omega) h
        refine ⟨by omega, fun _ => hrec.2.1 (by omega), hrec.2.2.1,
          fun m hm hm' => ?_⟩
        rcases Nat.eq_or_lt_of_le hm with rfl | hlt
        · exact hc
        · exact hrec.2.2.2 m hlt hm'
    · simp only [hc, not_false_eq_true, if_true, Bool.false_eq_true,
        not_false_iff, ite_true, Except.ok.injEq] at h
      subst h
      exact ⟨le_refl _, fun h9 => h9, by simpa using hc,
        fun m hm hm' => absurd (lt_of_le_of_lt hm hm') (lt_irrefl _)⟩

lemma findSeqGo_error_iff (occ : Nat → Bool) (fuel : Nat) :
    ∀ counter, 999 ≤ counter + fuel → counter ≤ 999 →
      (findSeqGo occ counter fuel = .error "連番の上限に達しました" ↔
        ∀ m, counter ≤ m → m ≤ 999 → occ m = true) := by
  induction fuel with
  | zero =>
    intro counter hinv hle
    have hc999 : counter = 999 := by omega
    subst hc999
    simp only [findSeqGo]
    by_cases hc : occ 999
    · simp only [hc, not_true_eq_false, if_false, reduceIte, true_iff]
      intro m hm hm'
      have : m = 999 := le_antisymm hm' hm
      subst this
      exact hc
    · simp only [hc, Bool.false_eq_true, not_false_iff, ite_true]
      constructor
      · intro h; exact absurd h (by simp)
      · intro h
        exact absurd (h 999 (le_refl _) (le_refl _)) (by simpa using hc)
  | succ f ih =>
    intro counter hinv hle
    simp only [findSeqGo]
    by_cases hc : occ counter
    · simp only [hc, not_true_eq_false, if_false, reduceIte]
      split
      · rename_i hgt
        have hc999 : counter = 999 := by omega
        subst hc999
        simp only [true_iff]
        intro m hm hm'
        have : m = 999 := le_antisymm hm' hm
        subst this
        exact hc
      · rename_i hngt
        rw [ih (counter + 1) (by omega) (by omega)]
        constructor
        · intro hall m hm hm'
          rcases Nat.eq_or_lt_of_le hm with rfl | hlt
          · exact hc
          · exact hall m hlt hm'
        · intro hall m hm hm'
          exact hall m (by omega) hm'
    · simp only [hc, Bool.false_eq_true, not_false_iff, ite_true]
      constructor
      · intro h; exact absurd h (by simp)
      · intro h
        exact absurd (h counter (le_refl _) hle) (by simpa using hc)

/-- C4: the artifact-name disambiguation returns the first candidate
`<stem>_<NNN>.jpg`, `NNN` scanned upward from 001, that does not exist on
the filesystem, and fails with the sequence-exhausted error exactly when
all 999 candidate slots exist. -/
theorem artifact_disambiguation (fs : FS) (dateDir : FsPath) (stem : String) :
    (∀ p, nextArtifactPath fs dateDir stem = .ok p →
      ∃ n, 1 ≤ n ∧ n ≤ 999 ∧ p = candidatePath dateDir stem n ∧
        fs.pathExists (candidatePath dateDir stem n) = false ∧
        ∀ m, 1 ≤ m → m < n →
          fs.pathExists (candidatePath dateDir stem m) = true) ∧
    (nextArtifactPath fs dateDir stem = .error "連番の上限に達しました" ↔
      ∀ m, 1 ≤ m → m ≤ 999 →
        fs.pathExists (candidatePath dateDir stem m) = true) := by
  have hiff : (findSeqFrom
        (fun n => fs.pathExists (candidatePath dateDir stem n)) 1 =
        .error "連番の上限に達しました") ↔
      ∀ m, 1 ≤ m → m ≤ 999 →
        fs.pathExists (candidatePath dateDir stem m) = true :=
    findSeqGo_error_iff (fun n => fs.pathExists (candidatePath dateDir stem n))
      998 1 (by omega) (by omega)
  constructor
  · intro p hp
    unfold nextArtifactPath at hp
    rcases hfind : findSeqFrom
        (fun n => fs.pathExists (candidatePath dateDir stem n)) 1
      with e | n
    · rw [hfind] at hp; exact absurd hp (by simp)
    · rw [hfind] at hp
      simp only [Except.ok.injEq] at hp
      subst hp
      have h := findSeqGo_ok
        (fun n => fs.pathExists (candidatePath dateDir stem n)) 998 1 n
        (by omega) hfind
      exact ⟨n, h.1, h.2.1 (by omega), rfl, h.2.2.1, h.2.2.2⟩
  · unfold nextArtifactPath
    rcases hfind : findSeqFrom
        (fun n => fs.pathExists (candidatePath dateDir stem n)) 1
      with e | n
    · rw [hfind] at hiff
      simpa using hiff
    · rw [hfind] at hiff
      simpa using hiff

/-! ### Analysis-client claims (C1, C6, C8) -/

/-- C1: when the input path exists but its canonicalized form is not a
descendant of `<picturesDir>/auto-daily-report`, `analyze_screenshot`
fails with the path-rejected error, the HTTP request is never issued, and
no sidecar is written. -/
theorem analyze_rejects_outside_path (env : AnalyzeEnv) (image_path : FsPath)
    (model prompt : String) (pd c : FsPath)
    (hpd : env.picturesDir = some pd)
    (hex : env.fs.pathExists image_path = true)
    (hcanon : env.fs.canonicalize image_path = .ok c)
    (hout : (canonicalAppDir env.fs pd).isPrefixOf c = false) :
    analyze_screenshot env image_path model prompt =
      { result := .error "許可されていない画像パスです",
        httpCalled := false, sidecar := none } := by
  unfold canonicalAppDir at hout
  unfold analyze_screenshot validate_pictures_path
  simp only [hex, hcanon, hpd]
  simp [hout]

/-- A filesystem for the C1 witness: only `/etc/passwd` and the app
directory exist, and canonicalization is the identity. -/
def fsOutside : FS :=
  { pathExists := fun p =>
      p == ["etc", "passwd"] ||
      p == ["Users", "me", "Pictures", "auto-daily-report"],
    canonicalize := fun p => .ok p }

/-- An environment for the C1 witness. -/
def envOutside : AnalyzeEnv :=
  { fs := fsOutside,
    picturesDir := some ["Users", "me", "Pictures"],
    getApiKey := .ok "key",
    contextInfo := { wifi_ssid := none, location := none },
    readImage := fun _ => .ok "b64",
    http := fun _ => .transportError "unreachable",
    parseJson := fun _ => .error "unparsed",
    serializeResult := fun _ => .ok "serialized",
    writeFile := fun _ _ => .ok (),
    now := "2025-01-01T00:00:00+09:00" }

/-- Witness for C1: `/etc/passwd` exists, canonicalizes to itself, lies
outside the app directory, and `analyze_screenshot` rejects it without
issuing the HTTP request. -/
theorem analyze_rejects_outside_path_witness :
    envOutside.picturesDir = some ["Users", "me", "Pictures"] ∧
    envOutside.fs.pathExists ["etc", "passwd"] = true ∧
    envOutside.fs.canonicalize ["etc", "passwd"] = .ok ["etc", "passwd"] ∧
    (canonicalAppDir envOutside.fs
      ["Users", "me", "Pictures"]).isPrefixOf ["etc", "passwd"] = false ∧
    analyze_screenshot envOutside ["etc", "passwd"] "gpt" "describe" =
      { result := .error "許可されていない画像パスです",
        httpCalled := false, sidecar := none } :=
  ⟨rfl, rfl, rfl, rfl,
   analyze_rejects_outside_path envOutside ["etc", "passwd"] "gpt" "describe"
     ["Users", "me", "Pictures"] ["etc", "passwd"] rfl rfl rfl rfl⟩

/-- C6: on a non-success HTTP status the returned error is selected only
by the status code — two responses with the same status and different
bodies yield the identical error string, the body never entering the
message — and the hint classifies 401 as auth, 403 as permission, 429 as
rate-limit, 500-599 as transient, anything else as generic. -/
theorem http_error_sanitized (env : AnalyzeEnv) (image_path : FsPath)
    (model prompt : String) (vp : FsPath) (key b64 : String)
    (s : Nat) (b1 b2 : String)
    (hvp : validate_pictures_path env.fs env.picturesDir image_path = .ok vp)
    (hkey : env.getApiKey = .ok key)
    (hread : env.readImage vp = .ok b64)
    (hs : statusIsSuccess s = false) :
    (analyze_screenshot { env with http := fun _ => .response s (.ok b1) }
        image_path model prompt).result =
      .error ("API エラー (" ++ toString s ++ "): " ++ analyzeErrorHint s) ∧
    (analyze_screenshot { env with http := fun _ => .response s (.ok b1) }
        image_path model prompt).result =
      (analyze_screenshot { env with http := fun _ => .response s (.ok b2) }
        image_path model prompt).result ∧
    analyzeErrorHint 401 = "認証エラー。APIキーを確認してください" ∧
    analyzeErrorHint 403 = "アクセス拒否。APIキーの権限を確認してください" ∧
    analyzeErrorHint 429 = "レート制限。しばらく待ってから再試行してください" ∧
    (∀ t, 500 ≤ t → t ≤ 599 →
      analyzeErrorHint t = "サーバーエラー。しばらく待ってから再試行してください") ∧
    (∀ t, t ≠ 401 → t ≠ 403 → t ≠ 429 → ¬(500 ≤ t ∧ t ≤ 599) →
      analyzeErrorHint t = "APIリクエストに失敗しました") := by
  have key_step : ∀ b : String,
      (analyze_screenshot { env with http := fun _ => .response s (.ok b) }
        image_path model prompt).result =
      .error ("API エラー (" ++ toString s ++ "): " ++ analyzeErrorHint s) := by
    intro b
    unfold analyze_screenshot
    simp [hvp, hkey, hread, hs]
  refine ⟨key_step b1, (key_step b1).trans (key_step b2).symm, rfl, rfl, rfl,
    ?_, ?_⟩
  · intro t h1 h2
    unfold analyzeErrorHint
    rw [if_neg (by omega), if_neg (by omega), if_neg (by omega),
      if_pos (show (500 ≤ t && t ≤ 599) = true by simp [h1, h2])]
  · intro t h1 h2 h3 h4
    unfold analyzeErrorHint
    rw [if_neg h1, if_neg h2, if_neg h3,
      if_neg (show ¬((500 ≤ t && t ≤ 599) = true) by simpa using h4)]

/-- A filesystem where every path exists and canonicalization is the
identity, for the C6 and C8 witnesses. -/
def fsAllExist : FS :=
  { pathExists := fun _ => true, canonicalize := fun p => .ok p }

/-- An artifact path inside the app output tree, for the C6 and C8
witnesses. -/
def insidePath : FsPath :=
  ["Users", "me", "Pictures", "auto-daily-report", "2025-01-01",
   "20250101_120000_001.jpg"]

/-- An environment whose validation succeeds on `insidePath`, for the C6
witness. -/
def envInside : AnalyzeEnv :=
  { fs := fsAllExist,
    picturesDir := some ["Users", "me", "Pictures"],
    getApiKey := .ok "key",
    contextInfo := { wifi_ssid := none, location := none },
    readImage := fun _ => .ok "b64",
    http := fun _ => .transportError "default",
    parseJson := fun _ => .error "unparsed",
    serializeResult := fun _ => .ok "serialized",
    writeFile := fun _ _ => .ok (),
    now := "2025-01-01T00:00:00+09:00" }

/-- Witness for C6 at status 429 with two different response bodies. -/
theorem http_error_sanitized_witness :
    validate_pictures_path envInside.fs envInside.picturesDir insidePath =
      .ok insidePath ∧
    envInside.getApiKey = .ok "key" ∧
    envInside.readImage insidePath = .ok "b64" ∧
    statusIsSuccess 429 = false ∧
    (analyze_screenshot
        { envInside with http := fun _ => .response 429 (.ok "rate limited: req echo A") }
        insidePath "gpt" "describe").result =
      .error ("API エラー (" ++ toString 429 ++ "): " ++ analyzeErrorHint 429) ∧
    (analyze_screenshot
        { envInside with http := fun _ => .response 429 (.ok "rate limited: req echo A") }
        insidePath "gpt" "describe").result =
      (analyze_screenshot
        { envInside with http := fun _ => .response 429 (.ok "an entirely different body") }
        insidePath "gpt" "describe").result :=
  ⟨rfl, rfl, rfl, rfl,
   (http_error_sanitized envInside insidePath "gpt" "describe" insidePath
     "key" "b64" 429 "rate limited: req echo A" "an entirely different body"
     rfl rfl rfl rfl).1,
   (http_error_sanitized envInside insidePath "gpt" "describe" insidePath
     "key" "b64" 429 "rate limited: req echo A" "an entirely different body"
     rfl rfl rfl rfl).2.1⟩

/-- C8: once the analysis text is obtained (validation, credential, image
read, HTTP success, parse, no provider error, text present), a successful
serialize-and-write persists the sidecar at the validated path with its
extension replaced by `.json` and the call returns the text; a
serialization failure or a write failure makes the whole call return an
error even though the text was already obtained. -/
theorem sidecar_persistence (env : AnalyzeEnv) (image_path : FsPath)
    (model prompt : String) (vp : FsPath) (key b64 rbody text : String)
    (s : Nat) (resp : OpenAIResponse)
    (hvp : validate_pictures_path env.fs env.picturesDir image_path = .ok vp)
    (hkey : env.getApiKey = .ok key)
    (hread : env.readImage vp = .ok b64)
    (hhttp : ∀ r, env.http r = .response s (.ok rbody))
    (hs : statusIsSuccess s = true)
    (hparse : env.parseJson rbody = .ok resp)
    (herr : resp.error = none)
    (htext : (resp.choices.bind List.head?).bind
      (fun c => c.message.content) = some text) :
    (∀ content, env.serializeResult
        { timestamp := env.now, model := model, context := env.contextInfo,
          analysis := text } = .ok content →
      (env.writeFile (withExtension vp "json") content = .ok () →
        (analyze_screenshot env image_path model prompt).result = .ok text ∧
        (analyze_screenshot env image_path model prompt).sidecar =
          some (withExtension vp "json", content)) ∧
      (∀ e, env.writeFile (withExtension vp "json") content = .error e →
        (analyze_screenshot env image_path model prompt).result =
          .error ("JSON保存エラー: " ++ e))) ∧
    (∀ e, env.serializeResult
        { timestamp := env.now, model := model, context := env.contextInfo,
          analysis := text } = .error e →
      (analyze_screenshot env image_path model prompt).result =
        .error ("JSONシリアライズエラー: " ++ e)) := by
  constructor
  · intro content hser
    constructor
    · intro hwrite
      unfold analyze_screenshot
      simp [hvp, hkey, hread, hhttp, hs, hparse, herr, htext, hser, hwrite]
    · intro e hwrite
      unfold analyze_screenshot
      simp [hvp, hkey, hread, hhttp, hs, hparse, herr, htext, hser, hwrite]
  · intro e hser
    unfold analyze_screenshot
    simp [hvp, hkey, hread, hhttp, hs, hparse, herr, htext, hser]

/-- A parsed provider response carrying one completion, for the C8
witness. -/
def respWithText : OpenAIResponse :=
  { choices := some [{ message := { content := some "解析テキスト" } }],
    error := none }

/-- An environment whose whole analysis pipeline succeeds, for the C8
witness. -/
def envSidecar : AnalyzeEnv :=
  { fs := fsAllExist,
    picturesDir := some ["Users", "me", "Pictures"],
    getApiKey := .ok "key",
    contextInfo := { wifi_ssid := none, location := none },
    readImage := fun _ => .ok "b64",
    http := fun _ => .response 200 (.ok "responsebody"),
    parseJson := fun _ => .ok respWithText,
    serializeResult := fun _ => .ok "serialized-json",
    writeFile := fun _ _ => .ok (),
    now := "2025-01-01T00:00:00+09:00" }

/-- The same environment with a failing sidecar write, for the C8
witness. -/
def envSidecarFail : AnalyzeEnv :=
  { envSidecar with writeFile := fun _ _ => .error "disk full" }

/-- Witness for C8: with everything succeeding the sidecar lands at the
validated path with `.json` extension and the text is returned; with a
failing write the whole call errors. -/
theorem sidecar_persistence_witness :
    ((analyze_screenshot envSidecar insidePath "gpt" "describe").result =
       .ok "解析テキスト" ∧
     (analyze_screenshot envSidecar insidePath "gpt" "describe").sidecar =
       some (withExtension insidePath "json", "serialized-json")) ∧
    (analyze_screenshot envSidecarFail insidePath "gpt" "describe").result =
      .error ("JSON保存エラー: " ++ "disk full") :=
  ⟨((sidecar_persistence envSidecar insidePath "gpt" "describe" insidePath
      "key" "b64" "responsebody" "解析テキスト" 200 respWithText
      rfl rfl rfl (fun _ => rfl) rfl rfl rfl rfl).1
      "serialized-json" rfl).1 rfl,
   ((sidecar_persistence envSidecarFail insidePath "gpt" "describe" insidePath
      "key" "b64" "responsebody" "解析テキスト" 200 respWithText
      rfl rfl rfl (fun _ => rfl) rfl rfl rfl rfl).1
      "serialized-json" rfl).2 "disk full" rfl⟩

/-- An occupancy pattern for the C4 witness: slots 001 and 002 of the
date directory are taken, slot 003 is free. -/
def fsTwoTaken : FS :=
  { pathExists := fun p =>
      p == candidatePath ["d"] "20250101_120000" 1 ||
      p == candidatePath ["d"] "20250101_120000" 2,
    canonicalize := fun p => .ok p }

/-- Witness for C4: with slots 001 and 002 taken the scan returns the
003 candidate, which indeed is free while every smaller slot is taken. -/
theorem artifact_disambiguation_witness :
    nextArtifactPath fsTwoTaken ["d"] "20250101_120000" =
      .ok (candidatePath ["d"] "20250101_120000" 3) ∧
    (∃ n, 1 ≤ n ∧ n ≤ 999 ∧
      candidatePath ["d"] "20250101_120000" 3 =
        candidatePath ["d"] "20250101_120000" n ∧
      fsTwoTaken.pathExists (candidatePath ["d"] "20250101_120000" n) = false ∧
      ∀ m, 1 ≤ m → m < n →
        fsTwoTaken.pathExists (candidatePath ["d"] "20250101_120000" m) = true) :=
  ⟨by rfl,
   (artifact_disambiguation fsTwoTaken ["d"] "20250101_120000").1
     (candidatePath ["d"] "20250101_120000" 3) (by rfl)⟩

end AutoDailyReport
